import Mathlib

/-!
Verification of the NYC street data extraction pipeline
(`extract_street_data.py`): spatial filtering, region construction,
block spacing adjustment, SVG rasterization and the HTML export.

Coordinates are modelled with exact rationals.  External library
behaviour (the shapely `intersects` predicate, the geometry `centroid`,
the pyproj transformer) is modelled from the specification text, as
noted on each definition; everything else is translated directly from
the Python source.
-/

namespace StreetData

/-- A planar point with rational coordinates, as a shapely coordinate pair. -/
@[ext]
structure Pt where
  x : ℚ
  y : ℚ
deriving DecidableEq, Repr

/-- Squared euclidean distance between two points. -/
def dist2 (a b : Pt) : ℚ := (a.x - b.x) ^ 2 + (a.y - b.y) ^ 2

theorem dist2_nonneg (a b : Pt) : 0 ≤ dist2 a b := by
  have hx := sq_nonneg (a.x - b.x)
  have hy := sq_nonneg (a.y - b.y)
  unfold dist2
  linarith

theorem dist2_eq_zero_parts {a b : Pt} (h : dist2 a b = 0) :
    b.x - a.x = 0 ∧ b.y - a.y = 0 := by
  unfold dist2 at h
  have hx : (a.x - b.x) ^ 2 = 0 := by nlinarith [sq_nonneg (a.x - b.x), sq_nonneg (a.y - b.y)]
  have hy : (a.y - b.y) ^ 2 = 0 := by nlinarith [sq_nonneg (a.x - b.x), sq_nonneg (a.y - b.y)]
  constructor
  · have := sub_eq_zero.mp (pow_eq_zero_iff two_ne_zero |>.mp hx)
    linarith
  · have := sub_eq_zero.mp (pow_eq_zero_iff two_ne_zero |>.mp hy)
    linarith

theorem dist2_pos_of_ne {a b : Pt} (h : a ≠ b) : 0 < dist2 a b := by
  rcases lt_or_eq_of_le (dist2_nonneg a b) with hlt | heq
  · exact hlt
  · exfalso
    obtain ⟨hx, hy⟩ := dist2_eq_zero_parts heq.symm
    exact h (Pt.ext (by linarith) (by linarith))

/-- Point on the segment from `a` to `b` at parameter `t`. -/
def lerpPt (a b : Pt) (t : ℚ) : Pt :=
  ⟨a.x + t * (b.x - a.x), a.y + t * (b.y - a.y)⟩

theorem lerpPt_zero (a b : Pt) : lerpPt a b 0 = a := by
  unfold lerpPt
  ext <;> simp

theorem lerpPt_one (a b : Pt) : lerpPt a b 1 = b := by
  unfold lerpPt
  ext <;> simp

/-- Dot product of `c - a` with `b - a`: the numerator of the projection
parameter of `c` on the segment from `a` to `b`. -/
def segBeta (a b c : Pt) : ℚ :=
  (c.x - a.x) * (b.x - a.x) + (c.y - a.y) * (b.y - a.y)

theorem lerp_dist2 (a b c : Pt) (t : ℚ) :
    dist2 (lerpPt a b t) c =
      dist2 a c - 2 * segBeta a b c * t + dist2 a b * t ^ 2 := by
  unfold dist2 lerpPt segBeta
  ring

/-- Squared distance from the point `c` to the closed segment from `a` to `b`:
the minimum of `dist2 (lerpPt a b t) c` over `t` in `[0, 1]`. -/
def segClosest2 (a b c : Pt) : ℚ :=
  if dist2 a b = 0 then dist2 a c
  else if segBeta a b c ≤ 0 then dist2 a c
  else if dist2 a b ≤ segBeta a b c then dist2 b c
  else dist2 a c - segBeta a b c ^ 2 / dist2 a b

theorem segClosest2_le (a b c : Pt) (t : ℚ) (h0 : 0 ≤ t) (h1 : t ≤ 1) :
    segClosest2 a b c ≤ dist2 (lerpPt a b t) c := by
  rw [lerp_dist2]
  unfold segClosest2
  set alf := dist2 a b with half
  set bet := segBeta a b c with hbet
  have halfnn : 0 ≤ alf := dist2_nonneg a b
  by_cases hz : alf = 0
  · obtain ⟨hx, hy⟩ := dist2_eq_zero_parts (half ▸ hz)
    have hb0 : bet = 0 := by
      rw [hbet]
      unfold segBeta
      rw [hx, hy]
      ring
    rw [if_pos hz, hb0, hz]
    ring_nf
    exact le_refl _
  · rw [if_neg hz]
    have halfpos : 0 < alf := lt_of_le_of_ne halfnn (Ne.symm hz)
    by_cases hb : bet ≤ 0
    · rw [if_pos hb]
      nlinarith [mul_nonneg (mul_nonneg h0 h0) halfnn, mul_nonneg h0 (neg_nonneg.mpr hb)]
    · rw [if_neg hb]
      push_neg at hb
      by_cases hab : alf ≤ bet
      · rw [if_pos hab]
        have hb1 : dist2 b c = dist2 a c - 2 * bet + alf := by
          have := lerp_dist2 a b c 1
          rw [lerpPt_one] at this
          rw [this, ← half, ← hbet]
          ring
        rw [hb1]
        nlinarith [mul_nonneg (sub_nonneg.mpr h1) (sub_nonneg.mpr hab),
          mul_nonneg (sub_nonneg.mpr h1) halfnn,
          mul_nonneg (mul_nonneg (sub_nonneg.mpr h1) halfnn) h0]
      · rw [if_neg hab]
        have key : (2 * bet * t - alf * t ^ 2) * alf ≤ bet ^ 2 := by
          nlinarith [sq_nonneg (bet - alf * t)]
        have hdiv := (le_div_iff₀ halfpos).mpr key
        linarith

theorem segClosest2_attained (a b c : Pt) :
    ∃ t : ℚ, 0 ≤ t ∧ t ≤ 1 ∧ dist2 (lerpPt a b t) c = segClosest2 a b c := by
  unfold segClosest2
  set alf := dist2 a b with half
  set bet := segBeta a b c with hbet
  have halfnn : 0 ≤ alf := dist2_nonneg a b
  by_cases hz : alf = 0
  · refine ⟨0, le_refl _, by norm_num, ?_⟩
    rw [if_pos hz, lerpPt_zero]
  · rw [if_neg hz]
    have halfpos : 0 < alf := lt_of_le_of_ne halfnn (Ne.symm hz)
    by_cases hb : bet ≤ 0
    · refine ⟨0, le_refl _, by norm_num, ?_⟩
      rw [if_pos hb, lerpPt_zero]
    · push_neg at hb
      rw [if_neg (not_le.mpr hb)]
      by_cases hab : alf ≤ bet
      · refine ⟨1, by norm_num, le_refl _, ?_⟩
        rw [if_pos hab, lerpPt_one]
      · push_neg at hab
        refine ⟨bet / alf, le_of_lt (div_pos hb halfpos), ?_, ?_⟩
        · exact (div_le_one halfpos).mpr (le_of_lt hab)
        · rw [if_neg (not_le.mpr hab), lerp_dist2, ← half, ← hbet]
          field_simp
          ring

/-- Geometry kinds handled by the pipeline, as a tagged variant mirroring the
shapely geometry classes that appear in `extract_street_data.py`: LineString,
MultiLineString, Polygon (exterior ring plus interior rings), MultiPolygon,
and Point (a kind the rasterizer does not draw). -/
inductive Geom
  | lineString (coords : List Pt)
  | multiLineString (lines : List (List Pt))
  | polygon (exterior : List Pt) (interiors : List (List Pt))
  | multiPolygon (polys : List (List Pt × List (List Pt)))
  | point (p : Pt)
deriving DecidableEq, Repr

/-- All coordinates of a geometry, in source order: the data `total_bounds`
and the centroid computation range over these. -/
def Geom.coords : Geom → List Pt
  | .lineString cs => cs
  | .multiLineString ls => ls.flatten
  | .polygon e is => e ++ is.flatten
  | .multiPolygon ps => (ps.map (fun pr => pr.1 ++ pr.2.flatten)).flatten
  | .point p => [p]

/-- Consecutive coordinate pairs of a coordinate sequence. -/
def segsOf : List Pt → List (Pt × Pt)
  | [] => []
  | [_] => []
  | a :: b :: rest => (a, b) :: segsOf (b :: rest)

/-- The line segments making up the drawn locus of a geometry; a point is the
degenerate segment on itself. -/
def Geom.segments : Geom → List (Pt × Pt)
  | .lineString cs => segsOf cs
  | .multiLineString ls => (ls.map segsOf).flatten
  | .polygon e is => segsOf e ++ (is.map segsOf).flatten
  | .multiPolygon ps => (ps.map (fun pr => segsOf pr.1 ++ (pr.2.map segsOf).flatten)).flatten
  | .point p => [(p, p)]

/-- The set of plane points lying on a segment. -/
def segPts (s : Pt × Pt) : Set Pt :=
  {p | ∃ t : ℚ, 0 ≤ t ∧ t ≤ 1 ∧ p = lerpPt s.1 s.2 t}

/-- Ray-casting edge test: whether the horizontal rightward ray from `p`
crosses the edge from `a` to `b` (the standard even-odd crossing test,
computed exactly over the rationals). -/
def edgeCrossesRay (p a b : Pt) : Bool :=
  (decide (a.y > p.y) != decide (b.y > p.y)) &&
  decide (p.x < (b.x - a.x) * (p.y - a.y) / (b.y - a.y) + a.x)

/-- Whether `p` is inside the closed ring by the even-odd rule: the
rightward ray from `p` crosses an odd number of the ring edges. -/
def insideRing (ring : List Pt) (p : Pt) : Bool :=
  ((segsOf ring).countP (fun s => edgeCrossesRay p s.1 s.2)) % 2 == 1

/-- Whether `p` is in the filled region of a polygon: inside the exterior
ring and inside none of the interior rings (holes). -/
def insidePolygon (e : List Pt) (is : List (List Pt)) (p : Pt) : Bool :=
  insideRing e p && is.all (fun r => !(insideRing r p))

/-- Whether `p` lies in the filled interior of an areal geometry kind;
curve and point kinds have no areal interior. -/
def Geom.containsPt : Geom → Pt → Bool
  | .polygon e is, p => insidePolygon e is p
  | .multiPolygon ps, p => ps.any (fun pr => insidePolygon pr.1 pr.2 p)
  | _, _ => false

/-- Modelled from the spec: the full point set of a geometry — the points on
its segments together with, for the areal kinds (polygon, multi-polygon),
the filled interior under the standard even-odd ray-crossing rule.  A curve
is the union of its segments; a polygon is its rings plus its filled
region. -/
def Geom.areaSet (g : Geom) : Set Pt :=
  {p | (∃ s ∈ g.segments, p ∈ segPts s) ∨ g.containsPt p = true}

/-- Modelled from the spec: the circular `SearchRegion` built by the shapely
`buffer` call (an external library) around a center point — "the polygon
formed by offsetting a point outward by a fixed distance in all directions".
It is modelled as the exact closed disc. -/
structure Disc where
  center : Pt
  radius : ℚ
deriving DecidableEq, Repr

/-- The set of plane points belonging to the disc (boundary included). -/
def Disc.set (d : Disc) : Set Pt :=
  {p | dist2 p d.center ≤ d.radius ^ 2}

/-- Decides whether a segment meets the closed disc. -/
def segIntersectsDisc (d : Disc) (s : Pt × Pt) : Bool :=
  decide (segClosest2 s.1 s.2 d.center ≤ d.radius ^ 2)

/-- Modelled from the spec: the shapely `intersects` predicate (an external
library call at line 90 of the source) — "non-empty intersection with the
region polygon, including boundary-touching and containment" — decided
segment by segment against the disc, plus the containment test of whether
the region center lies in the filled interior of an areal geometry. -/
def Geom.intersectsDisc (g : Geom) (d : Disc) : Bool :=
  g.segments.any (segIntersectsDisc d) || g.containsPt d.center

theorem segIntersectsDisc_iff (d : Disc) (s : Pt × Pt) :
    segIntersectsDisc d s = true ↔ (segPts s ∩ d.set).Nonempty := by
  unfold segIntersectsDisc
  rw [decide_eq_true_iff]
  constructor
  · intro h
    obtain ⟨t, ht0, ht1, hval⟩ := segClosest2_attained s.1 s.2 d.center
    refine ⟨lerpPt s.1 s.2 t, ⟨t, ht0, ht1, rfl⟩, ?_⟩
    unfold Disc.set
    rw [Set.mem_setOf_eq, hval]
    exact h
  · rintro ⟨p, ⟨t, ht0, ht1, hp⟩, hmem⟩
    unfold Disc.set at hmem
    rw [Set.mem_setOf_eq, hp] at hmem
    exact le_trans (segClosest2_le s.1 s.2 d.center t ht0 ht1) hmem

theorem center_mem_set (d : Disc) : d.center ∈ d.set := by
  unfold Disc.set
  rw [Set.mem_setOf_eq]
  have h0 : dist2 d.center d.center = 0 := by
    unfold dist2
    ring
  rw [h0]
  exact sq_nonneg d.radius

theorem intersectsDisc_sound (g : Geom) (d : Disc)
    (h : g.intersectsDisc d = true) : (g.areaSet ∩ d.set).Nonempty := by
  unfold Geom.intersectsDisc at h
  rw [Bool.or_eq_true] at h
  rcases h with h | h
  · rw [List.any_eq_true] at h
    obtain ⟨s, hs, hint⟩ := h
    obtain ⟨p, hp, hpd⟩ := (segIntersectsDisc_iff d s).mp hint
    exact ⟨p, Or.inl ⟨s, hs, hp⟩, hpd⟩
  · exact ⟨d.center, Or.inr h, center_mem_set d⟩

theorem intersectsDisc_iff_of_noArea (g : Geom) (d : Disc)
    (hna : ∀ p, g.containsPt p = false) :
    g.intersectsDisc d = true ↔ (g.areaSet ∩ d.set).Nonempty := by
  constructor
  · exact intersectsDisc_sound g d
  · rintro ⟨p, hmem, hpd⟩
    rcases hmem with ⟨s, hs, hp⟩ | hin
    · unfold Geom.intersectsDisc
      rw [Bool.or_eq_true]
      left
      rw [List.any_eq_true]
      exact ⟨s, hs, (segIntersectsDisc_iff d s).mpr ⟨p, hp, hpd⟩⟩
    · rw [hna p] at hin
      cases hin

/-- Attribute cell values carried by a feature, as loaded by geopandas. -/
inductive AttrVal
  | aStr (s : String)
  | aDatetime (iso : String)
  | aInt (n : Int)
  | aNone
deriving DecidableEq, Repr

/-- The Python `str` conversion applied by `astype(str)`. -/
def pyStr : AttrVal → String
  | .aStr s => s
  | .aDatetime iso => iso
  | .aInt n => toString n
  | .aNone => "None"

/-- One feature record: a geometry plus positional attribute cells. -/
structure Row where
  geom : Geom
  attrs : List AttrVal
deriving DecidableEq, Repr

/-- A GeoDataFrame: attribute column metadata (name, dtype name) and the
ordered feature rows.  The geometry column is kept in `Row.geom`; its pandas
dtype name is the string "geometry". -/
structure GeoFrame where
  colDtypes : List (String × String)
  rows : List Row
deriving DecidableEq, Repr

/-- The spatial filter of line 90: `gdf[gdf.geometry.intersects(buffer)]` —
boolean-mask row selection over the intersects predicate, with the external
shapely call abstracted as the predicate `inter`. -/
def spatialFilterWith (inter : Geom → Bool) (f : GeoFrame) : GeoFrame :=
  { f with rows := f.rows.filter (fun r => inter r.geom) }

/-- The spatial filter of line 90 instantiated with the modelled intersects
predicate. -/
def spatialFilter (d : Disc) (f : GeoFrame) : GeoFrame :=
  spatialFilterWith (fun g => g.intersectsDisc d) f

/-- Arithmetic mean of a list of rationals, as `np.mean` computes it
(the empty case never arises on the executed paths). -/
def mean (xs : List ℚ) : ℚ := xs.sum / (xs.length : ℚ)

/-- Modelled from the spec: the shapely `centroid` of a geometry (an external
library attribute) — per the spec glossary "the geometric center (mean
position) of the points of a shape". -/
def centroid (g : Geom) : Pt :=
  ⟨mean (g.coords.map Pt.x), mean (g.coords.map Pt.y)⟩

/-- Shift a point by the offsets `dx`, `dy`. -/
def shiftPt (dx dy : ℚ) (p : Pt) : Pt := ⟨p.x + dx, p.y + dy⟩

/-- The shapely `translate(geom, xoff, yoff)` affine transform: every
coordinate shifted by the offsets. -/
def translateGeom (dx dy : ℚ) : Geom → Geom
  | .lineString cs => .lineString (cs.map (shiftPt dx dy))
  | .multiLineString ls => .multiLineString (ls.map (fun l => l.map (shiftPt dx dy)))
  | .polygon e is =>
      .polygon (e.map (shiftPt dx dy)) (is.map (fun r => r.map (shiftPt dx dy)))
  | .multiPolygon ps =>
      .multiPolygon (ps.map (fun pr =>
        (pr.1.map (shiftPt dx dy), pr.2.map (fun r => r.map (shiftPt dx dy)))))
  | .point p => .point (shiftPt dx dy p)

/-- The block spacing adjustment of lines 176-187 of the source: per-feature
centroids, global centroid as the `np.mean` of their coordinates, and each
geometry translated by its centroid offset scaled by the ratio. -/
def spacingAdjust (ratio : ℚ) (gs : List Geom) : List Geom :=
  let cents := gs.map centroid
  let gx := mean (cents.map Pt.x)
  let gy := mean (cents.map Pt.y)
  (gs.zip cents).map (fun gc =>
    translateGeom ((gc.2.x - gx) * ratio) ((gc.2.y - gy) * ratio) gc.1)

/-- The global centroid used by the spacing adjustment: the unweighted mean of
the per-feature centroids. -/
def globalCentroidPt (gs : List Geom) : Pt :=
  ⟨mean ((gs.map centroid).map Pt.x), mean ((gs.map centroid).map Pt.y)⟩

/-- Bounding box (minx, miny, maxx, maxy) of a feature collection. -/
structure BBox where
  minx : ℚ
  miny : ℚ
  maxx : ℚ
  maxy : ℚ
deriving DecidableEq, Repr

/-- Fold minimum of a list of rationals (0 on the never-taken empty case). -/
def listMin : List ℚ → ℚ
  | [] => 0
  | v :: vs => vs.foldl min v

/-- Fold maximum of a list of rationals (0 on the never-taken empty case). -/
def listMax : List ℚ → ℚ
  | [] => 0
  | v :: vs => vs.foldl max v

/-- The geopandas `total_bounds` of a geometry list: coordinate-wise min and
max over every coordinate of every geometry. -/
def totalBounds (gs : List Geom) : BBox :=
  let pts := (gs.map Geom.coords).flatten
  ⟨listMin (pts.map Pt.x), listMin (pts.map Pt.y),
   listMax (pts.map Pt.x), listMax (pts.map Pt.y)⟩

/-- Fixed canvas width of the SVG export (line 146). -/
def svgWidth : ℚ := 1000

/-- Fixed canvas height of the SVG export (line 147). -/
def svgHeight : ℚ := 1000

/-- Fixed margin of the SVG export (line 148). -/
def svgMargin : ℚ := 40

/-- The uniform scale of lines 171-173: the min of the two axis scales over
the margin-bounded canvas. -/
def canvasScale (b : BBox) : ℚ :=
  min ((svgWidth - 2 * svgMargin) / (b.maxx - b.minx))
    ((svgHeight - 2 * svgMargin) / (b.maxy - b.miny))

/-- The `transform_coords` closure of lines 199-202: shift by the bounding box
min, scale, flip the Y axis, and offset by the margin. -/
def transformCoords (minx maxy scl margin : ℚ) (p : Pt) : ℚ × ℚ :=
  ((p.x - minx) * scl + margin, (maxy - p.y) * scl + margin)

/-- The geometry-kind mask of line 154: only LineString, MultiLineString,
Polygon and MultiPolygon are kept for drawing. -/
def drawable : Geom → Bool
  | .lineString _ => true
  | .multiLineString _ => true
  | .polygon _ _ => true
  | .multiPolygon _ => true
  | .point _ => false

/-- The drawing loop body of lines 209-228: the polylines emitted for one
geometry under the coordinate transform.  Open lines need more than one
coordinate; polygon exteriors are emitted unconditionally and interior rings
are never drawn. -/
def drawGeom (tc : Pt → ℚ × ℚ) : Geom → List (List (ℚ × ℚ))
  | .lineString cs => if cs.length > 1 then [cs.map tc] else []
  | .multiLineString ls =>
      ls.filterMap (fun l => if l.length > 1 then some (l.map tc) else none)
  | .polygon e _ => [e.map tc]
  | .multiPolygon ps => ps.map (fun pr => pr.1.map tc)
  | .point _ => []

/-- Dataset category selected by the user: centerlines or sidewalks. -/
inductive DataType
  | traffic
  | pedestrian
deriving DecidableEq, Repr

/-- The Python `str.startswith` test, decided on the character lists. -/
def pyStartsWith (s pre : String) : Bool :=
  pre.data.isPrefixOf s.data

/-- Pandas dtype names converted to strings by `export_to_html` (lines
101-103): dtype names starting with "datetime", or equal to "object". -/
def dtypeConverted (dtype : String) : Bool :=
  pyStartsWith dtype "datetime" || dtype == "object"

/-- Row-level effect of the column conversion loop: each attribute cell whose
column dtype is converted becomes its Python string form. -/
def mutateAttrs (dtypes : List String) (vals : List AttrVal) : List AttrVal :=
  (dtypes.zip vals).map (fun dv =>
    if dtypeConverted dv.1 then .aStr (pyStr dv.2) else dv.2)

/-- The in-place mutation `export_to_html` performs on the frame it is given
(lines 100-103) before building the folium map: every datetime-like or
object column is converted to strings with `astype(str)` (its dtype becoming
"object"); the geometry column has dtype name "geometry" and is untouched. -/
def exportToHtmlMutate (f : GeoFrame) : GeoFrame :=
  { colDtypes := f.colDtypes.map (fun c =>
      if dtypeConverted c.2 then (c.1, "object") else c),
    rows := f.rows.map (fun r =>
      { r with attrs := mutateAttrs (f.colDtypes.map Prod.snd) r.attrs }) }

/-- Outcome of `export_to_svg`: early return on no drawable data, early
return on a degenerate extent, a produced SVG drawing, or the
catch-and-fallback path that exports the working frame through
`export_to_html` instead. -/
inductive SvgResult
  | noData
  | degenerate
  | svgFile (strokeWidth : ℕ) (polylines : List (List (ℚ × ℚ)))
  | htmlFallback (exported : GeoFrame)
deriving DecidableEq, Repr

/-- The geometry-kind filter of line 154 applied to a frame. -/
def filteredFrame (gdf : GeoFrame) : GeoFrame :=
  { gdf with rows := gdf.rows.filter (fun r => drawable r.geom) }

/-- The geometry column of the type-filtered frame. -/
def drawableGeoms (gdf : GeoFrame) : List Geom :=
  (filteredFrame gdf).rows.map Row.geom

/-- The bounding box the rasterizer computes at line 160. -/
def frameBBox (gdf : GeoFrame) : BBox := totalBounds (drawableGeoms gdf)

/-- The reassignment `gdf.geometry = new_geometries` of lines 188-189:
same attribute cells, spacing-adjusted geometries. -/
def adjustFrame (ratio : ℚ) (f : GeoFrame) : GeoFrame :=
  { f with rows := ((f.rows.zip (spacingAdjust ratio (f.rows.map Row.geom))).map
      (fun rg => { geom := rg.2, attrs := rg.1.attrs })) }

/-- All polylines of the drawing: the per-row drawing loop flattened. -/
def renderFrame (f2 : GeoFrame) (b2 : BBox) (scl2 : ℚ) : List (List (ℚ × ℚ)) :=
  ((f2.rows.map Row.geom).map
    (drawGeom (transformCoords b2.minx b2.maxy scl2 svgMargin))).flatten

/-- The `export_to_svg` routine (lines 129-237).  `saveFails` models an
exception raised by the external svgwrite library while writing the file;
the surrounding `try`/`except` catches it and falls back to the HTML export
of the working frame.  Zero-width or zero-height extents return early
(lines 165-168) producing nothing; empty drawable data returns early
(lines 155-157). -/
def exportToSvg (gdf : GeoFrame) (dataType : DataType) (saveFails : Bool) :
    SvgResult :=
  let f1 := filteredFrame gdf
  if f1.rows.isEmpty then SvgResult.noData
  else
    let b := totalBounds (f1.rows.map Row.geom)
    if b.maxx - b.minx = 0 ∨ b.maxy - b.miny = 0 then SvgResult.degenerate
    else
      let f2 := if dataType = DataType.pedestrian then adjustFrame (1/5) f1 else f1
      let b2 := if dataType = DataType.pedestrian
        then totalBounds (f2.rows.map Row.geom) else b
      let pls := renderFrame f2 b2 (canvasScale b2)
      if saveFails then SvgResult.htmlFallback (exportToHtmlMutate f2)
      else SvgResult.svgFile (if dataType = DataType.pedestrian then 2 else 1) pls

/-- The working frame at the point the SVG save runs: type-filtered, and
spacing-adjusted when the data type is pedestrian. -/
def workingFrame (gdf : GeoFrame) (dataType : DataType) : GeoFrame :=
  if dataType = DataType.pedestrian then adjustFrame (1/5) (filteredFrame gdf)
  else filteredFrame gdf

/-- Output format chosen by the user in `main`: HTML only, SVG only, or both. -/
inductive OutputFormat
  | htmlOnly
  | svgOnly
  | bothFormats
deriving DecidableEq, Repr

/-- The export stage of `main` (lines 310-317): for format 1 or 3 the HTML
export runs first, mutating `data` in place; for format 2 or 3 the SVG export
then receives the same object — already mutated when both were requested. -/
def mainExportStage (fmt : OutputFormat) (dataType : DataType)
    (saveFails : Bool) (data : GeoFrame) :
    Option GeoFrame × Option SvgResult :=
  match fmt with
  | .htmlOnly => (some (exportToHtmlMutate data), none)
  | .svgOnly => (none, some (exportToSvg data dataType saveFails))
  | .bothFormats =>
      let mutated := exportToHtmlMutate data
      (some mutated, some (exportToSvg mutated dataType saveFails))

/-- Miles to meters conversion factor (line 23 of the source). -/
def MILES_TO_METERS : ℚ := 160934 / 100

/-- The dataset CRS as the code consults it: possibly absent, and carrying
the pyproj `is_geographic` flag. -/
structure CrsDef where
  is_geographic : Bool
deriving DecidableEq, Repr

/-- Failure of the external pyproj transformer construction. -/
inductive TransformError
  | cannotCreateTransformer
deriving DecidableEq, Repr

/-- Errors a region construction could surface.  The `unsupportedCrs`
constructor expresses the error class named by the spec; the source never
produces it. -/
inductive RegionError
  | unsupportedCrs
  | externalTransform (e : TransformError)
deriving DecidableEq, Repr

/-- The branch condition of line 80: `gdf.crs and gdf.crs.is_geographic` —
true only when a CRS is present and geographic. -/
def crsTruthyGeographic : Option CrsDef → Bool
  | some c => c.is_geographic
  | none => false

/-- Which buffer path the code takes: there are only two, and the projected
path is the catch-all `else`. -/
inductive BufferBranch
  | geographic
  | projected
deriving DecidableEq, Repr

/-- The buffer path taken for a dataset CRS (lines 80-87). -/
def bufferBranch (crs : Option CrsDef) : BufferBranch :=
  if crsTruthyGeographic crs then BufferBranch.geographic
  else BufferBranch.projected

/-- Region construction of lines 43-44 and 79-87: miles converted to meters
with the fixed constant; a geographic CRS buffers the geocoded point in
degree space with radius `radiusMeters / 111000`; otherwise the point is
transformed by the external pyproj transformer (`fromCrs`, which may fail)
and buffered in meters. -/
def resolveRegion (radiusMiles : ℚ) (crs : Option CrsDef) (pt : Pt)
    (fromCrs : Option CrsDef → Except TransformError (Pt → Pt)) :
    Except RegionError Disc :=
  let radiusMeters := radiusMiles * MILES_TO_METERS
  if crsTruthyGeographic crs then
    Except.ok ⟨pt, radiusMeters / 111000⟩
  else
    match fromCrs crs with
    | .ok proj => Except.ok ⟨proj pt, radiusMeters⟩
    | .error e => Except.error (RegionError.externalTransform e)

/-- Claim C1: the line-90 mask filter, run with any intersects predicate
that meets the spec contract of the external shapely call on the rows of
the collection — true exactly when the full point set of the feature
(segments plus filled interior for areal kinds: boundary-touching and
containment included) meets the region — returns exactly the features whose
geometry has a non-empty intersection with the region, keeps the surviving
features in source order, and never returns more features than the source
collection; moreover the modelled predicate instantiation is sound: every
feature it returns genuinely intersects the region. -/
theorem spatialFilter_exact (d : Disc) (f : GeoFrame) (inter : Geom → Bool)
    (hinter : ∀ r ∈ f.rows,
      (inter r.geom = true ↔ (Geom.areaSet r.geom ∩ d.set).Nonempty)) :
    (spatialFilterWith inter f).rows.Sublist f.rows ∧
    (spatialFilterWith inter f).rows.length ≤ f.rows.length ∧
    (∀ r, r ∈ (spatialFilterWith inter f).rows ↔
      r ∈ f.rows ∧ (Geom.areaSet r.geom ∩ d.set).Nonempty) ∧
    ∀ r ∈ (spatialFilter d f).rows,
      r ∈ f.rows ∧ (Geom.areaSet r.geom ∩ d.set).Nonempty := by
  unfold spatialFilter spatialFilterWith
  refine ⟨List.filter_sublist _, (List.filter_sublist _).length_le, ?_, ?_⟩
  · intro r
    rw [List.mem_filter]
    constructor
    · rintro ⟨hmem, htest⟩
      exact ⟨hmem, (hinter r hmem).mp htest⟩
    · rintro ⟨hmem, hset⟩
      exact ⟨hmem, (hinter r hmem).mpr hset⟩
  · intro r hr
    rw [List.mem_filter] at hr
    exact ⟨hr.1, intersectsDisc_sound _ _ hr.2⟩

/-- Concrete one-row line collection for the filter witness. -/
def lineFrame : GeoFrame :=
  ⟨[], [⟨Geom.lineString [⟨0, 0⟩, ⟨2, 0⟩], []⟩]⟩

/-- Concrete search region for the filter witness. -/
def unitDisc : Disc := ⟨⟨1, 0⟩, 1⟩

/-- Witness for C1: the modelled intersects predicate meets the contract on
the rows of the concrete line collection, and the filter characterization
follows at it. -/
theorem spatialFilter_exact_witness :
    (∀ r ∈ lineFrame.rows,
      ((fun g => g.intersectsDisc unitDisc) r.geom = true ↔
        (Geom.areaSet r.geom ∩ unitDisc.set).Nonempty)) ∧
    ((spatialFilterWith (fun g => g.intersectsDisc unitDisc)
        lineFrame).rows.Sublist lineFrame.rows ∧
    (spatialFilterWith (fun g => g.intersectsDisc unitDisc)
        lineFrame).rows.length ≤ lineFrame.rows.length ∧
    (∀ r, r ∈ (spatialFilterWith (fun g => g.intersectsDisc unitDisc)
        lineFrame).rows ↔
      r ∈ lineFrame.rows ∧ (Geom.areaSet r.geom ∩ unitDisc.set).Nonempty) ∧
    ∀ r ∈ (spatialFilter unitDisc lineFrame).rows,
      r ∈ lineFrame.rows ∧ (Geom.areaSet r.geom ∩ unitDisc.set).Nonempty) := by
  have hinter : ∀ r ∈ lineFrame.rows,
      ((fun g => g.intersectsDisc unitDisc) r.geom = true ↔
        (Geom.areaSet r.geom ∩ unitDisc.set).Nonempty) := by
    intro r hr
    have hrow : r = ⟨Geom.lineString [⟨0, 0⟩, ⟨2, 0⟩], []⟩ := by
      simpa [lineFrame] using hr
    subst hrow
    exact intersectsDisc_iff_of_noArea _ _ (fun p => rfl)
  exact ⟨hinter, spatialFilter_exact unitDisc lineFrame _ hinter⟩

/-- Claim C8: the spatial filter is idempotent — filtering an
already-filtered collection against the same region returns it unchanged. -/
theorem spatialFilter_idem (d : Disc) (f : GeoFrame) :
    spatialFilter d (spatialFilter d f) = spatialFilter d f := by
  unfold spatialFilter spatialFilterWith
  simp [List.filter_filter]

/-- Claim C4: the search radius in meters is `radiusMiles * 1609.34`; for a
geographic CRS the region is the buffer of `radiusMeters / 111000` degrees
around the geocoded point itself, and for a projected CRS the point is first
transformed into the dataset CRS and then buffered by `radiusMeters`. -/
theorem resolveRegion_paths (r : ℚ) (hr : 0 < r) (pt : Pt)
    (fromCrs : Option CrsDef → Except TransformError (Pt → Pt)) :
    resolveRegion r (some ⟨true⟩) pt fromCrs =
      Except.ok ⟨pt, r * (160934 / 100) / 111000⟩ ∧
    ∀ proj, fromCrs (some ⟨false⟩) = Except.ok proj →
      resolveRegion r (some ⟨false⟩) pt fromCrs =
        Except.ok ⟨proj pt, r * (160934 / 100)⟩ := by
  constructor
  · simp [resolveRegion, crsTruthyGeographic, MILES_TO_METERS]
  · intro proj hp
    simp [resolveRegion, crsTruthyGeographic, MILES_TO_METERS, hp]

/-- Witness for C4 at a concrete radius, point and transformer. -/
theorem resolveRegion_paths_witness :
    (0 : ℚ) < 2 ∧
    (resolveRegion 2 (some ⟨true⟩) ⟨1, 3⟩ (fun _ => Except.ok id) =
        Except.ok ⟨⟨1, 3⟩, 2 * (160934 / 100) / 111000⟩ ∧
      ∀ proj, (fun _ => Except.ok id :
            Option CrsDef → Except TransformError (Pt → Pt)) (some ⟨false⟩) =
          Except.ok proj →
        resolveRegion 2 (some ⟨false⟩) ⟨1, 3⟩ (fun _ => Except.ok id) =
          Except.ok ⟨proj ⟨1, 3⟩, 2 * (160934 / 100)⟩) :=
  ⟨by norm_num, resolveRegion_paths 2 (by norm_num) ⟨1, 3⟩ (fun _ => Except.ok id)⟩

/-- Counterexample to claim C6: with a missing dataset CRS — resolvable to
neither category — the code still takes the projected buffer path, and the
resulting failure is the external transformer error, never an
`UnsupportedCrsError` (no such check exists in the source). -/
theorem missing_crs_projected_cex :
    bufferBranch none = BufferBranch.projected ∧
    resolveRegion 1 none ⟨0, 0⟩
        (fun _ => Except.error TransformError.cannotCreateTransformer) =
      Except.error (RegionError.externalTransform
        TransformError.cannotCreateTransformer) ∧
    resolveRegion 1 none ⟨0, 0⟩
        (fun _ => Except.error TransformError.cannotCreateTransformer) ≠
      Except.error RegionError.unsupportedCrs := by
  refine ⟨rfl, rfl, ?_⟩
  simp [resolveRegion, crsTruthyGeographic]

/-- Claim C6 as amended: an unresolvable (missing) CRS is not detected by any
category check; the code proceeds down the projected buffer path, and region
construction fails with the external transformer construction error rather
than a dedicated `UnsupportedCrsError`. -/
theorem missing_crs_external_error (r : ℚ) (pt : Pt)
    (fromCrs : Option CrsDef → Except TransformError (Pt → Pt))
    (e : TransformError) (he : fromCrs none = Except.error e) :
    bufferBranch none = BufferBranch.projected ∧
    resolveRegion r none pt fromCrs =
      Except.error (RegionError.externalTransform e) ∧
    resolveRegion r none pt fromCrs ≠ Except.error RegionError.unsupportedCrs := by
  refine ⟨rfl, ?_, ?_⟩
  · simp [resolveRegion, crsTruthyGeographic, he]
  · simp [resolveRegion, crsTruthyGeographic, he]

/-- Witness for the amended C6 at a concrete failing transformer. -/
theorem missing_crs_external_error_witness :
    ((fun _ => Except.error TransformError.cannotCreateTransformer :
        Option CrsDef → Except TransformError (Pt → Pt)) none =
      Except.error TransformError.cannotCreateTransformer) ∧
    (bufferBranch none = BufferBranch.projected ∧
      resolveRegion 3 none ⟨2, 5⟩
          (fun _ => Except.error TransformError.cannotCreateTransformer) =
        Except.error (RegionError.externalTransform
          TransformError.cannotCreateTransformer) ∧
      resolveRegion 3 none ⟨2, 5⟩
          (fun _ => Except.error TransformError.cannotCreateTransformer) ≠
        Except.error RegionError.unsupportedCrs) :=
  ⟨rfl, missing_crs_external_error 3 ⟨2, 5⟩
    (fun _ => Except.error TransformError.cannotCreateTransformer)
    TransformError.cannotCreateTransformer rfl⟩

theorem mutateAttrs_get :
    ∀ (ds : List String) (vals : List AttrVal) (i : ℕ)
      (hd : i < ds.length) (hv : i < vals.length),
      (mutateAttrs ds vals)[i]? =
        some (if dtypeConverted (ds.get ⟨i, hd⟩)
          then AttrVal.aStr (pyStr (vals.get ⟨i, hv⟩)) else vals.get ⟨i, hv⟩)
  | _ :: _, _ :: _, 0, _, _ => by
      simp [mutateAttrs]
  | d :: ds, v :: vals, i + 1, hd, hv => by
      have := mutateAttrs_get ds vals i (Nat.lt_of_succ_lt_succ hd)
        (Nat.lt_of_succ_lt_succ hv)
      simpa [mutateAttrs, List.zip] using this
  | [], _, i, hd, _ => absurd hd (by simp)
  | _ :: _, [], i, _, hv => absurd hv (by simp)

/-- Claim C10: the HTML export mutates the frame it is given — every
attribute cell in a column whose dtype name is datetime-like or "object" is
converted to its string form in place — while the geometry column (dtype
name "geometry") is untouched; and when both outputs are requested, `main`
hands the SVG export that same mutated frame. -/
theorem html_export_mutation (f : GeoFrame) (dataType : DataType)
    (saveFails : Bool) :
    (mainExportStage OutputFormat.bothFormats dataType saveFails f).2 =
      some (exportToSvg (exportToHtmlMutate f) dataType saveFails) ∧
    (exportToHtmlMutate f).rows.map Row.geom = f.rows.map Row.geom ∧
    dtypeConverted "geometry" = false ∧
    ∀ (ds : List String) (vals : List AttrVal) (i : ℕ)
      (hd : i < ds.length) (hv : i < vals.length),
      (mutateAttrs ds vals)[i]? =
        some (if dtypeConverted (ds.get ⟨i, hd⟩)
          then AttrVal.aStr (pyStr (vals.get ⟨i, hv⟩)) else vals.get ⟨i, hv⟩) := by
  refine ⟨rfl, ?_, by decide, mutateAttrs_get⟩
  unfold exportToHtmlMutate
  simp [List.map_map, Function.comp]

/-- Witness for C10 at a concrete frame with a datetime column, an object
column, and an integer column. -/
theorem html_export_mutation_witness :
    ((mainExportStage OutputFormat.bothFormats DataType.traffic false
        ⟨[("seen", "datetime64[ns]"), ("name", "object"), ("len", "int64")],
         [⟨Geom.point ⟨0, 0⟩,
           [AttrVal.aDatetime "2025-05-22", AttrVal.aStr "Broadway",
            AttrVal.aInt 7]⟩]⟩).2 =
      some (exportToSvg (exportToHtmlMutate
        ⟨[("seen", "datetime64[ns]"), ("name", "object"), ("len", "int64")],
         [⟨Geom.point ⟨0, 0⟩,
           [AttrVal.aDatetime "2025-05-22", AttrVal.aStr "Broadway",
            AttrVal.aInt 7]⟩]⟩) DataType.traffic false) ∧
      (exportToHtmlMutate
        ⟨[("seen", "datetime64[ns]"), ("name", "object"), ("len", "int64")],
         [⟨Geom.point ⟨0, 0⟩,
           [AttrVal.aDatetime "2025-05-22", AttrVal.aStr "Broadway",
            AttrVal.aInt 7]⟩]⟩).rows.map Row.geom =
        [⟨Geom.point ⟨0, 0⟩,
           [AttrVal.aDatetime "2025-05-22", AttrVal.aStr "Broadway",
            AttrVal.aInt 7]⟩].map Row.geom ∧
      dtypeConverted "geometry" = false ∧
      ∀ (ds : List String) (vals : List AttrVal) (i : ℕ)
        (hd : i < ds.length) (hv : i < vals.length),
        (mutateAttrs ds vals)[i]? =
          some (if dtypeConverted (ds.get ⟨i, hd⟩)
            then AttrVal.aStr (pyStr (vals.get ⟨i, hv⟩)) else vals.get ⟨i, hv⟩)) ∧
    (mutateAttrs ["datetime64[ns]", "object", "int64"]
        [AttrVal.aDatetime "2025-05-22", AttrVal.aStr "Broadway",
         AttrVal.aInt 7]) =
      [AttrVal.aStr "2025-05-22", AttrVal.aStr "Broadway", AttrVal.aInt 7] :=
  ⟨html_export_mutation _ DataType.traffic false, by decide⟩

theorem coords_translate (dx dy : ℚ) (g : Geom) :
    (translateGeom dx dy g).coords = g.coords.map (shiftPt dx dy) := by
  cases g with
  | lineString cs => rfl
  | multiLineString ls =>
      simp [translateGeom, Geom.coords, List.map_flatten, List.map_map]
  | polygon e is =>
      simp [translateGeom, Geom.coords, List.map_flatten, List.map_map,
        List.map_append]
  | multiPolygon ps =>
      simp only [translateGeom, Geom.coords, List.map_flatten, List.map_map]
      congr 1
      apply List.map_congr_left
      intro pr _
      simp [Function.comp, List.map_append, List.map_flatten, List.map_map]
  | point p => rfl

theorem sum_map_add_const (xs : List ℚ) (d : ℚ) :
    (xs.map (fun v => v + d)).sum = xs.sum + xs.length * d := by
  induction xs with
  | nil => simp
  | cons a as ih =>
      simp [ih]
      ring

theorem mean_map_add (xs : List ℚ) (d : ℚ) (h : xs ≠ []) :
    mean (xs.map (fun v => v + d)) = mean xs + d := by
  unfold mean
  have h0 : xs.length ≠ 0 := fun hc => h (List.length_eq_zero.mp hc)
  have hl : ((xs.length : ℚ)) ≠ 0 := by exact_mod_cast h0
  rw [sum_map_add_const, List.length_map, add_div, mul_div_cancel_left₀ _ hl]

theorem centroid_translate (dx dy : ℚ) (g : Geom) (h : g.coords ≠ []) :
    centroid (translateGeom dx dy g) =
      ⟨(centroid g).x + dx, (centroid g).y + dy⟩ := by
  unfold centroid
  rw [coords_translate]
  have hx : (g.coords.map (shiftPt dx dy)).map Pt.x =
      (g.coords.map Pt.x).map (fun v => v + dx) := by
    simp [shiftPt, List.map_map, Function.comp]
  have hy : (g.coords.map (shiftPt dx dy)).map Pt.y =
      (g.coords.map Pt.y).map (fun v => v + dy) := by
    simp [shiftPt, List.map_map, Function.comp]
  have hnex : g.coords.map Pt.x ≠ [] := by simpa using h
  have hney : g.coords.map Pt.y ≠ [] := by simpa using h
  rw [hx, hy, mean_map_add _ _ hnex, mean_map_add _ _ hney]

theorem translateGeom_zero (g : Geom) : translateGeom 0 0 g = g := by
  have hs : shiftPt 0 0 = fun p => p := by
    funext p
    simp [shiftPt]
  cases g <;> simp [translateGeom, hs]

/-- Modelled from the spec: the BlockSpacingAdjuster contract — each feature
translated by (centroid - globalCentroid) * ratio, the global centroid being
the unweighted mean of the per-feature centroids. -/
def specSpread (ratio : ℚ) (gs : List Geom) : List Geom :=
  gs.map (fun g =>
    translateGeom (((centroid g).x - (globalCentroidPt gs).x) * ratio)
      (((centroid g).y - (globalCentroidPt gs).y) * ratio) g)

theorem zip_map_centroid (gs : List Geom) (f : Geom → Pt → Geom) :
    (gs.zip (gs.map centroid)).map (fun gc => f gc.1 gc.2) =
      gs.map (fun g => f g (centroid g)) := by
  induction gs with
  | nil => rfl
  | cons g rest ih => simp [ih]

theorem spacingAdjust_eq_specSpread (ratio : ℚ) (gs : List Geom) :
    spacingAdjust ratio gs = specSpread ratio gs := by
  unfold spacingAdjust specSpread globalCentroidPt
  exact zip_map_centroid gs (fun g c =>
    translateGeom ((c.x - mean ((gs.map centroid).map Pt.x)) * ratio)
      ((c.y - mean ((gs.map centroid).map Pt.y)) * ratio) g)

theorem spacingAdjust_length (ratio : ℚ) (gs : List Geom) :
    (spacingAdjust ratio gs).length = gs.length := by
  rw [spacingAdjust_eq_specSpread]
  exact List.length_map _ _

/-- Claim C9: the spacing adjustment with ratio 0 is a geometric no-op, and
with a positive ratio every feature whose centroid differs from the global
centroid ends strictly further from the global centroid. -/
theorem spacing_ratio_props (ratio : ℚ) (gs : List Geom) (hr : 0 < ratio) :
    spacingAdjust 0 gs = gs ∧
    List.Forall₂ (fun g g2 =>
      g.coords ≠ [] → centroid g ≠ globalCentroidPt gs →
      dist2 (centroid g) (globalCentroidPt gs) <
        dist2 (centroid g2) (globalCentroidPt gs)) gs (spacingAdjust ratio gs) := by
  constructor
  · rw [spacingAdjust_eq_specSpread]
    unfold specSpread
    simp [translateGeom_zero]
  · rw [spacingAdjust_eq_specSpread]
    unfold specSpread
    rw [List.forall₂_map_right_iff]
    rw [List.forall₂_same]
    intro g hg hcoords hne
    rw [centroid_translate _ _ _ hcoords]
    have hpos : 0 < dist2 (centroid g) (globalCentroidPt gs) :=
      dist2_pos_of_ne hne
    set c := centroid g
    set gc := globalCentroidPt gs
    unfold dist2 at hpos ⊢
    dsimp only
    nlinarith [mul_pos hr hpos, mul_pos (mul_pos hr hr) hpos]

/-- Witness for C9 at two concrete line features and ratio 1. -/
theorem spacing_ratio_props_witness :
    (0 : ℚ) < 1 ∧
    (spacingAdjust 0 [Geom.lineString [⟨0, 0⟩, ⟨2, 0⟩],
        Geom.lineString [⟨4, 0⟩, ⟨6, 0⟩]] =
      [Geom.lineString [⟨0, 0⟩, ⟨2, 0⟩], Geom.lineString [⟨4, 0⟩, ⟨6, 0⟩]] ∧
    List.Forall₂ (fun g g2 =>
      g.coords ≠ [] →
      centroid g ≠ globalCentroidPt [Geom.lineString [⟨0, 0⟩, ⟨2, 0⟩],
        Geom.lineString [⟨4, 0⟩, ⟨6, 0⟩]] →
      dist2 (centroid g) (globalCentroidPt [Geom.lineString [⟨0, 0⟩, ⟨2, 0⟩],
        Geom.lineString [⟨4, 0⟩, ⟨6, 0⟩]]) <
        dist2 (centroid g2) (globalCentroidPt [Geom.lineString [⟨0, 0⟩, ⟨2, 0⟩],
          Geom.lineString [⟨4, 0⟩, ⟨6, 0⟩]]))
      [Geom.lineString [⟨0, 0⟩, ⟨2, 0⟩], Geom.lineString [⟨4, 0⟩, ⟨6, 0⟩]]
      (spacingAdjust 1 [Geom.lineString [⟨0, 0⟩, ⟨2, 0⟩],
        Geom.lineString [⟨4, 0⟩, ⟨6, 0⟩]])) :=
  ⟨by norm_num, spacing_ratio_props 1
    [Geom.lineString [⟨0, 0⟩, ⟨2, 0⟩], Geom.lineString [⟨4, 0⟩, ⟨6, 0⟩]]
    (by norm_num)⟩

theorem adjustFrame_geoms (ratio : ℚ) (f : GeoFrame) :
    (adjustFrame ratio f).rows.map Row.geom =
      spacingAdjust ratio (f.rows.map Row.geom) := by
  unfold adjustFrame
  rw [List.map_map]
  have hfun : (Row.geom ∘ fun rg : Row × Geom =>
      { geom := rg.2, attrs := rg.1.attrs : Row }) = Prod.snd := rfl
  rw [hfun]
  apply List.map_snd_zip
  rw [spacingAdjust_length, List.length_map]

theorem exportToSvg_run (gdf : GeoFrame) (dataType : DataType)
    (saveFails : Bool)
    (hne : (filteredFrame gdf).rows.isEmpty = false)
    (hdeg : ¬ ((frameBBox gdf).maxx - (frameBBox gdf).minx = 0 ∨
      (frameBBox gdf).maxy - (frameBBox gdf).miny = 0)) :
    exportToSvg gdf dataType saveFails =
      if saveFails then
        SvgResult.htmlFallback (exportToHtmlMutate (workingFrame gdf dataType))
      else
        SvgResult.svgFile (if dataType = DataType.pedestrian then 2 else 1)
          (renderFrame (workingFrame gdf dataType)
            (if dataType = DataType.pedestrian
              then totalBounds ((workingFrame gdf dataType).rows.map Row.geom)
              else frameBBox gdf)
            (canvasScale (if dataType = DataType.pedestrian
              then totalBounds ((workingFrame gdf dataType).rows.map Row.geom)
              else frameBBox gdf))) := by
  simp only [exportToSvg, workingFrame]
  rw [hne]
  simp only [Bool.false_eq_true, if_false]
  have hdeg2 : ¬ ((totalBounds (List.map Row.geom (filteredFrame gdf).rows)).maxx -
        (totalBounds (List.map Row.geom (filteredFrame gdf).rows)).minx = 0 ∨
      (totalBounds (List.map Row.geom (filteredFrame gdf).rows)).maxy -
        (totalBounds (List.map Row.geom (filteredFrame gdf).rows)).miny = 0) := hdeg
  rw [if_neg hdeg2]
  rfl

/-- Claim C5: for pedestrian data the rasterizer adjusts spacing by
translating every feature by (its centroid - global centroid) * 0.2, the
global centroid being the unweighted arithmetic mean of the per-feature
centroids, and the canvas transform (bounds and scale) used for coordinate
mapping is recomputed from the adjusted geometry. -/
theorem pedestrian_spacing_pipeline (f : GeoFrame)
    (hne : (filteredFrame f).rows.isEmpty = false)
    (hdeg : ¬ ((frameBBox f).maxx - (frameBBox f).minx = 0 ∨
      (frameBBox f).maxy - (frameBBox f).miny = 0)) :
    exportToSvg f DataType.pedestrian false =
      SvgResult.svgFile 2
        (((specSpread (1/5) (drawableGeoms f)).map
          (drawGeom (transformCoords
            (totalBounds (specSpread (1/5) (drawableGeoms f))).minx
            (totalBounds (specSpread (1/5) (drawableGeoms f))).maxy
            (canvasScale (totalBounds (specSpread (1/5) (drawableGeoms f))))
            svgMargin))).flatten) ∧
    specSpread (1/5) (drawableGeoms f) =
      (drawableGeoms f).map (fun g =>
        translateGeom
          (((centroid g).x -
            ((drawableGeoms f).map (fun g2 => (centroid g2).x)).sum /
              ((drawableGeoms f).length : ℚ)) * (1/5))
          (((centroid g).y -
            ((drawableGeoms f).map (fun g2 => (centroid g2).y)).sum /
              ((drawableGeoms f).length : ℚ)) * (1/5)) g) := by
  have hgeoms : List.map Row.geom (adjustFrame (1/5) (filteredFrame f)).rows =
      specSpread (1/5) (drawableGeoms f) := by
    rw [adjustFrame_geoms, spacingAdjust_eq_specSpread]
    rfl
  constructor
  · calc exportToSvg f DataType.pedestrian false
        = SvgResult.svgFile 2 (renderFrame (adjustFrame (1/5) (filteredFrame f))
            (totalBounds (List.map Row.geom
              (adjustFrame (1/5) (filteredFrame f)).rows))
            (canvasScale (totalBounds (List.map Row.geom
              (adjustFrame (1/5) (filteredFrame f)).rows)))) := by
          rw [exportToSvg_run f DataType.pedestrian false hne hdeg]
          rfl
      _ = _ := by
          unfold renderFrame
          rw [hgeoms]
  · unfold specSpread globalCentroidPt mean
    simp only [List.map_map, List.length_map]
    rfl

/-- Concrete pedestrian frame: two triangular sidewalk polygons. -/
def pedFrame : GeoFrame :=
  ⟨[], [⟨Geom.polygon [⟨0, 0⟩, ⟨2, 0⟩, ⟨0, 2⟩] [], []⟩,
        ⟨Geom.polygon [⟨4, 0⟩, ⟨6, 0⟩, ⟨4, 2⟩] [], []⟩]⟩

/-- Witness for C5 at the concrete pedestrian frame. -/
theorem pedestrian_spacing_pipeline_witness :
    (filteredFrame pedFrame).rows.isEmpty = false ∧
    (¬ ((frameBBox pedFrame).maxx - (frameBBox pedFrame).minx = 0 ∨
      (frameBBox pedFrame).maxy - (frameBBox pedFrame).miny = 0)) ∧
    (exportToSvg pedFrame DataType.pedestrian false =
      SvgResult.svgFile 2
        (((specSpread (1/5) (drawableGeoms pedFrame)).map
          (drawGeom (transformCoords
            (totalBounds (specSpread (1/5) (drawableGeoms pedFrame))).minx
            (totalBounds (specSpread (1/5) (drawableGeoms pedFrame))).maxy
            (canvasScale (totalBounds
              (specSpread (1/5) (drawableGeoms pedFrame))))
            svgMargin))).flatten) ∧
    specSpread (1/5) (drawableGeoms pedFrame) =
      (drawableGeoms pedFrame).map (fun g =>
        translateGeom
          (((centroid g).x -
            ((drawableGeoms pedFrame).map (fun g2 => (centroid g2).x)).sum /
              ((drawableGeoms pedFrame).length : ℚ)) * (1/5))
          (((centroid g).y -
            ((drawableGeoms pedFrame).map (fun g2 => (centroid g2).y)).sum /
              ((drawableGeoms pedFrame).length : ℚ)) * (1/5)) g)) :=
  ⟨by with_unfolding_all decide, by with_unfolding_all decide,
    pedestrian_spacing_pipeline pedFrame (by with_unfolding_all decide) (by with_unfolding_all decide)⟩

/-- Concrete frame whose bounding box has zero width: a vertical centerline. -/
def degFrame : GeoFrame :=
  ⟨[], [⟨Geom.lineString [⟨0, 0⟩, ⟨0, 5⟩], []⟩]⟩

/-- Counterexample to claim C2: on a zero-width extent, `export_to_svg`
returns early with no output at all — it does not produce the HTML
(serialization-sink) fallback, with or without a save failure armed. -/
theorem degenerate_no_fallback_cex :
    exportToSvg degFrame DataType.traffic false = SvgResult.degenerate ∧
    exportToSvg degFrame DataType.traffic false ≠
      SvgResult.htmlFallback
        (exportToHtmlMutate (workingFrame degFrame DataType.traffic)) ∧
    exportToSvg degFrame DataType.traffic true = SvgResult.degenerate := by
  refine ⟨by with_unfolding_all decide, ?_, by with_unfolding_all decide⟩
  with_unfolding_all decide

/-- Claim C2 as amended: a zero-width or zero-height bounding box makes the
rasterizer abort with a logged message and return early, producing neither a
vector drawing nor the serialization-sink fallback; the condition is not
surfaced as a failure to the caller. -/
theorem degenerate_aborts (f : GeoFrame) (dataType : DataType)
    (saveFails : Bool)
    (hne : (filteredFrame f).rows.isEmpty = false)
    (hdeg : (frameBBox f).maxx - (frameBBox f).minx = 0 ∨
      (frameBBox f).maxy - (frameBBox f).miny = 0) :
    exportToSvg f dataType saveFails = SvgResult.degenerate ∧
    exportToSvg f dataType saveFails ≠
      SvgResult.htmlFallback (exportToHtmlMutate (workingFrame f dataType)) := by
  have h1 : exportToSvg f dataType saveFails = SvgResult.degenerate := by
    simp only [exportToSvg]
    rw [hne]
    simp only [Bool.false_eq_true, if_false]
    have hdeg2 : (totalBounds (List.map Row.geom (filteredFrame f).rows)).maxx -
          (totalBounds (List.map Row.geom (filteredFrame f).rows)).minx = 0 ∨
        (totalBounds (List.map Row.geom (filteredFrame f).rows)).maxy -
          (totalBounds (List.map Row.geom (filteredFrame f).rows)).miny = 0 := hdeg
    rw [if_pos hdeg2]
  refine ⟨h1, ?_⟩
  rw [h1]
  simp

/-- Witness for the amended C2 at the vertical-line frame. -/
theorem degenerate_aborts_witness :
    (filteredFrame degFrame).rows.isEmpty = false ∧
    ((frameBBox degFrame).maxx - (frameBBox degFrame).minx = 0 ∨
      (frameBBox degFrame).maxy - (frameBBox degFrame).miny = 0) ∧
    (exportToSvg degFrame DataType.pedestrian true = SvgResult.degenerate ∧
    exportToSvg degFrame DataType.pedestrian true ≠
      SvgResult.htmlFallback
        (exportToHtmlMutate (workingFrame degFrame DataType.pedestrian))) :=
  ⟨by with_unfolding_all decide, by with_unfolding_all decide,
    degenerate_aborts degFrame DataType.pedestrian true (by with_unfolding_all decide) (by with_unfolding_all decide)⟩

/-- The spacing-adjusted version of `pedFrame`, written out. -/
def pedFrameAdjusted : GeoFrame :=
  ⟨[], [⟨Geom.polygon [⟨-2/5, 0⟩, ⟨8/5, 0⟩, ⟨-2/5, 2⟩] [], []⟩,
        ⟨Geom.polygon [⟨22/5, 0⟩, ⟨32/5, 0⟩, ⟨22/5, 2⟩] [], []⟩]⟩

/-- Counterexample to claim C7: when the SVG save fails on pedestrian data,
the caught-and-logged fallback exports the spacing-adjusted working
collection, whose geometries differ from the filtered collection that was
passed in — not "the same (unrasterized) filtered feature collection". -/
theorem fallback_collection_cex :
    exportToSvg pedFrame DataType.pedestrian true =
      SvgResult.htmlFallback pedFrameAdjusted ∧
    filteredFrame pedFrame = pedFrame ∧
    pedFrameAdjusted.rows.map Row.geom ≠ pedFrame.rows.map Row.geom := by
  refine ⟨by with_unfolding_all decide, by with_unfolding_all decide, by with_unfolding_all decide⟩

/-- Claim C7 as amended: a failure raised while writing the SVG is caught,
logged, and answered by exporting the working collection through the HTML
serialization sink — the type-filtered collection for traffic data, the
type-filtered and spacing-adjusted collection for pedestrian data; no
failure propagates to the caller. -/
theorem fallback_on_save_failure (f : GeoFrame) (dataType : DataType)
    (hne : (filteredFrame f).rows.isEmpty = false)
    (hdeg : ¬ ((frameBBox f).maxx - (frameBBox f).minx = 0 ∨
      (frameBBox f).maxy - (frameBBox f).miny = 0)) :
    exportToSvg f dataType true =
      SvgResult.htmlFallback (exportToHtmlMutate (workingFrame f dataType)) ∧
    workingFrame f DataType.traffic = filteredFrame f ∧
    (workingFrame f DataType.pedestrian).rows.map Row.geom =
      spacingAdjust (1/5) (drawableGeoms f) := by
  refine ⟨?_, rfl, ?_⟩
  · rw [exportToSvg_run f dataType true hne hdeg]
    simp
  · unfold workingFrame
    rw [if_pos rfl]
    exact adjustFrame_geoms _ _

/-- Witness for the amended C7 at the concrete pedestrian frame. -/
theorem fallback_on_save_failure_witness :
    (filteredFrame pedFrame).rows.isEmpty = false ∧
    (¬ ((frameBBox pedFrame).maxx - (frameBBox pedFrame).minx = 0 ∨
      (frameBBox pedFrame).maxy - (frameBBox pedFrame).miny = 0)) ∧
    (exportToSvg pedFrame DataType.pedestrian true =
      SvgResult.htmlFallback
        (exportToHtmlMutate (workingFrame pedFrame DataType.pedestrian)) ∧
    workingFrame pedFrame DataType.traffic = filteredFrame pedFrame ∧
    (workingFrame pedFrame DataType.pedestrian).rows.map Row.geom =
      spacingAdjust (1/5) (drawableGeoms pedFrame)) :=
  ⟨by with_unfolding_all decide, by with_unfolding_all decide,
    fallback_on_save_failure pedFrame DataType.pedestrian (by with_unfolding_all decide) (by with_unfolding_all decide)⟩

theorem drawGeom_mem (tc : Pt → ℚ × ℚ) (g : Geom) :
    ∀ pl ∈ drawGeom tc g, ∀ q ∈ pl, ∃ p ∈ g.coords, q = tc p := by
  cases g with
  | lineString cs =>
      intro pl hpl q hq
      by_cases h : cs.length > 1
      · simp only [drawGeom, if_pos h, List.mem_singleton] at hpl
        subst hpl
        obtain ⟨p, hp, hpq⟩ := List.mem_map.mp hq
        exact ⟨p, hp, hpq.symm⟩
      · simp [drawGeom, h] at hpl
  | multiLineString ls =>
      intro pl hpl q hq
      simp only [drawGeom] at hpl
      obtain ⟨l, hl, heq⟩ := List.mem_filterMap.mp hpl
      by_cases h : l.length > 1
      · rw [if_pos h] at heq
        obtain hpl2 := Option.some.inj heq
        subst hpl2
        obtain ⟨p, hp, hpq⟩ := List.mem_map.mp hq
        exact ⟨p, by simpa [Geom.coords] using List.mem_flatten.mpr ⟨l, hl, hp⟩,
          hpq.symm⟩
      · rw [if_neg h] at heq
        cases heq
  | polygon e is =>
      intro pl hpl q hq
      simp only [drawGeom, List.mem_singleton] at hpl
      subst hpl
      obtain ⟨p, hp, hpq⟩ := List.mem_map.mp hq
      exact ⟨p, by simp [Geom.coords, hp], hpq.symm⟩
  | multiPolygon ps =>
      intro pl hpl q hq
      obtain ⟨pr, hpr, hpl2⟩ := List.mem_map.mp hpl
      subst hpl2
      obtain ⟨p, hp, hpq⟩ := List.mem_map.mp hq
      refine ⟨p, ?_, hpq.symm⟩
      simp only [Geom.coords]
      exact List.mem_flatten.mpr ⟨pr.1 ++ pr.2.flatten,
        List.mem_map.mpr ⟨pr, hpr, rfl⟩, List.mem_append_left _ hp⟩
  | point p =>
      intro pl hpl
      simp [drawGeom] at hpl

/-- Claim C3 as amended: every drawn coordinate is the image of a source
coordinate under the stated formula with the uniform min scale; the corner
(minX, maxY) maps exactly to (margin, margin); the opposite corner maps to
(margin + extentWidth * scale, margin + extentHeight * scale), which stays
within the margin-bounded canvas and reaches the opposite margin exactly on
an axis achieving the min. -/
theorem rasterizer_mapping (f : GeoFrame)
    (hne : (filteredFrame f).rows.isEmpty = false)
    (hw : 0 < (frameBBox f).maxx - (frameBBox f).minx)
    (hh : 0 < (frameBBox f).maxy - (frameBBox f).miny) :
    (∀ p : Pt,
      transformCoords (frameBBox f).minx (frameBBox f).maxy
          (canvasScale (frameBBox f)) svgMargin p =
        ((p.x - (frameBBox f).minx) * canvasScale (frameBBox f) + svgMargin,
         ((frameBBox f).maxy - p.y) * canvasScale (frameBBox f) + svgMargin)) ∧
    transformCoords (frameBBox f).minx (frameBBox f).maxy
        (canvasScale (frameBBox f)) svgMargin
        ⟨(frameBBox f).minx, (frameBBox f).maxy⟩ = (svgMargin, svgMargin) ∧
    transformCoords (frameBBox f).minx (frameBBox f).maxy
        (canvasScale (frameBBox f)) svgMargin
        ⟨(frameBBox f).maxx, (frameBBox f).miny⟩ =
      (svgMargin + ((frameBBox f).maxx - (frameBBox f).minx) *
          canvasScale (frameBBox f),
       svgMargin + ((frameBBox f).maxy - (frameBBox f).miny) *
          canvasScale (frameBBox f)) ∧
    (svgMargin + ((frameBBox f).maxx - (frameBBox f).minx) *
        canvasScale (frameBBox f) ≤ svgWidth - svgMargin ∧
     svgMargin + ((frameBBox f).maxy - (frameBBox f).miny) *
        canvasScale (frameBBox f) ≤ svgHeight - svgMargin) ∧
    (((frameBBox f).maxx - (frameBBox f).minx) * canvasScale (frameBBox f) =
        svgWidth - 2 * svgMargin ∨
     ((frameBBox f).maxy - (frameBBox f).miny) * canvasScale (frameBBox f) =
        svgHeight - 2 * svgMargin) ∧
    ∃ pls, exportToSvg f DataType.traffic false = SvgResult.svgFile 1 pls ∧
      ∀ pl ∈ pls, ∀ q ∈ pl, ∃ g ∈ drawableGeoms f, ∃ p ∈ g.coords,
        q = transformCoords (frameBBox f).minx (frameBBox f).maxy
          (canvasScale (frameBBox f)) svgMargin p := by
  have hdeg : ¬ ((frameBBox f).maxx - (frameBBox f).minx = 0 ∨
      (frameBBox f).maxy - (frameBBox f).miny = 0) := by
    rintro (h | h)
    · exact absurd h (ne_of_gt hw)
    · exact absurd h (ne_of_gt hh)
  refine ⟨fun p => rfl, ?_, ?_, ⟨?_, ?_⟩, ?_, ?_⟩
  · simp only [transformCoords, Prod.mk.injEq]
    constructor <;> ring
  · simp only [transformCoords, Prod.mk.injEq]
    constructor <;> ring
  · have hle : canvasScale (frameBBox f) ≤
        (svgWidth - 2 * svgMargin) / ((frameBBox f).maxx - (frameBBox f).minx) :=
      min_le_left _ _
    have h2 : ((frameBBox f).maxx - (frameBBox f).minx) *
        canvasScale (frameBBox f) ≤ svgWidth - 2 * svgMargin := by
      calc ((frameBBox f).maxx - (frameBBox f).minx) * canvasScale (frameBBox f) ≤
          ((frameBBox f).maxx - (frameBBox f).minx) *
            ((svgWidth - 2 * svgMargin) /
              ((frameBBox f).maxx - (frameBBox f).minx)) :=
            mul_le_mul_of_nonneg_left hle (le_of_lt hw)
        _ = svgWidth - 2 * svgMargin := by
            rw [mul_comm, div_mul_cancel₀ _ (ne_of_gt hw)]
    linarith
  · have hle : canvasScale (frameBBox f) ≤
        (svgHeight - 2 * svgMargin) / ((frameBBox f).maxy - (frameBBox f).miny) :=
      min_le_right _ _
    have h2 : ((frameBBox f).maxy - (frameBBox f).miny) *
        canvasScale (frameBBox f) ≤ svgHeight - 2 * svgMargin := by
      calc ((frameBBox f).maxy - (frameBBox f).miny) * canvasScale (frameBBox f) ≤
          ((frameBBox f).maxy - (frameBBox f).miny) *
            ((svgHeight - 2 * svgMargin) /
              ((frameBBox f).maxy - (frameBBox f).miny)) :=
            mul_le_mul_of_nonneg_left hle (le_of_lt hh)
        _ = svgHeight - 2 * svgMargin := by
            rw [mul_comm, div_mul_cancel₀ _ (ne_of_gt hh)]
    linarith
  · rcases min_choice
        ((svgWidth - 2 * svgMargin) / ((frameBBox f).maxx - (frameBBox f).minx))
        ((svgHeight - 2 * svgMargin) / ((frameBBox f).maxy - (frameBBox f).miny))
      with hmin | hmin
    · left
      have hcs : canvasScale (frameBBox f) =
          (svgWidth - 2 * svgMargin) /
            ((frameBBox f).maxx - (frameBBox f).minx) := by
        rw [canvasScale]
        exact hmin
      rw [hcs, mul_comm, div_mul_cancel₀ _ (ne_of_gt hw)]
    · right
      have hcs : canvasScale (frameBBox f) =
          (svgHeight - 2 * svgMargin) /
            ((frameBBox f).maxy - (frameBBox f).miny) := by
        rw [canvasScale]
        exact hmin
      rw [hcs, mul_comm, div_mul_cancel₀ _ (ne_of_gt hh)]
  · refine ⟨renderFrame (filteredFrame f) (frameBBox f)
      (canvasScale (frameBBox f)), ?_, ?_⟩
    · rw [exportToSvg_run f DataType.traffic false hne hdeg]
      simp [workingFrame]
    · intro pl hpl q hq
      unfold renderFrame at hpl
      obtain ⟨l, hl, hpl2⟩ := List.mem_flatten.mp hpl
      obtain ⟨g, hg, hgl⟩ := List.mem_map.mp hl
      subst hgl
      obtain ⟨p, hp, hpq⟩ := drawGeom_mem _ g pl hpl2 q hq
      exact ⟨g, hg, p, hp, hpq⟩

/-- Concrete two-point centerline at the bounding-box extremes, with a
non-square extent. -/
def diagFrame : GeoFrame :=
  ⟨[], [⟨Geom.lineString [⟨0, 0⟩, ⟨2, 1⟩], []⟩]⟩

set_option maxRecDepth 10000 in
/-- Counterexample to claim C3: for the two-point line from (0,0) to (2,1)
the scale is min(920/2, 920/1) = 460, and the corner (minX, minY) is drawn
at (40, 500) — not at (margin, canvasHeight - margin) = (40, 960) as the
claim asserts for all four corners. -/
theorem corner_mapping_cex :
    exportToSvg diagFrame DataType.traffic false =
      SvgResult.svgFile 1 [[((40 : ℚ), (500 : ℚ)), ((960 : ℚ), (40 : ℚ))]] ∧
    transformCoords (frameBBox diagFrame).minx (frameBBox diagFrame).maxy
        (canvasScale (frameBBox diagFrame)) svgMargin
        ⟨(frameBBox diagFrame).minx, (frameBBox diagFrame).miny⟩ =
      ((40 : ℚ), (500 : ℚ)) ∧
    ((40 : ℚ), (500 : ℚ)) ≠ (svgMargin, svgHeight - svgMargin) := by
  refine ⟨by with_unfolding_all decide, by with_unfolding_all decide, by with_unfolding_all decide⟩

/-- Witness for the amended C3 at the concrete two-point centerline. -/
theorem rasterizer_mapping_witness :
    (filteredFrame diagFrame).rows.isEmpty = false ∧
    0 < (frameBBox diagFrame).maxx - (frameBBox diagFrame).minx ∧
    0 < (frameBBox diagFrame).maxy - (frameBBox diagFrame).miny ∧
    ((∀ p : Pt,
      transformCoords (frameBBox diagFrame).minx (frameBBox diagFrame).maxy
          (canvasScale (frameBBox diagFrame)) svgMargin p =
        ((p.x - (frameBBox diagFrame).minx) * canvasScale (frameBBox diagFrame) +
            svgMargin,
         ((frameBBox diagFrame).maxy - p.y) * canvasScale (frameBBox diagFrame) +
            svgMargin)) ∧
    transformCoords (frameBBox diagFrame).minx (frameBBox diagFrame).maxy
        (canvasScale (frameBBox diagFrame)) svgMargin
        ⟨(frameBBox diagFrame).minx, (frameBBox diagFrame).maxy⟩ =
      (svgMargin, svgMargin) ∧
    transformCoords (frameBBox diagFrame).minx (frameBBox diagFrame).maxy
        (canvasScale (frameBBox diagFrame)) svgMargin
        ⟨(frameBBox diagFrame).maxx, (frameBBox diagFrame).miny⟩ =
      (svgMargin + ((frameBBox diagFrame).maxx - (frameBBox diagFrame).minx) *
          canvasScale (frameBBox diagFrame),
       svgMargin + ((frameBBox diagFrame).maxy - (frameBBox diagFrame).miny) *
          canvasScale (frameBBox diagFrame)) ∧
    (svgMargin + ((frameBBox diagFrame).maxx - (frameBBox diagFrame).minx) *
        canvasScale (frameBBox diagFrame) ≤ svgWidth - svgMargin ∧
     svgMargin + ((frameBBox diagFrame).maxy - (frameBBox diagFrame).miny) *
        canvasScale (frameBBox diagFrame) ≤ svgHeight - svgMargin) ∧
    (((frameBBox diagFrame).maxx - (frameBBox diagFrame).minx) *
        canvasScale (frameBBox diagFrame) = svgWidth - 2 * svgMargin ∨
     ((frameBBox diagFrame).maxy - (frameBBox diagFrame).miny) *
        canvasScale (frameBBox diagFrame) = svgHeight - 2 * svgMargin) ∧
    ∃ pls, exportToSvg diagFrame DataType.traffic false =
        SvgResult.svgFile 1 pls ∧
      ∀ pl ∈ pls, ∀ q ∈ pl, ∃ g ∈ drawableGeoms diagFrame, ∃ p ∈ g.coords,
        q = transformCoords (frameBBox diagFrame).minx
          (frameBBox diagFrame).maxy
          (canvasScale (frameBBox diagFrame)) svgMargin p) :=
  ⟨by with_unfolding_all decide, by with_unfolding_all decide, by with_unfolding_all decide,
    rasterizer_mapping diagFrame (by with_unfolding_all decide) (by with_unfolding_all decide) (by with_unfolding_all decide)⟩

end StreetData
